import Mathlib

/-!
Shallow embedding of the Mechatronics Portfolio backend
(`src/main.py`, `src/schemas.py`) and proofs of the specification claims.

Pydantic validation of inbound JSON payloads is modelled over payloads whose
fields are `Option String` (absent vs. present-as-string); length constraints
count Unicode code points, matching both Python `len` on `str` and Lean
`String.length`.  The external e-mail validator behind pydantic's `EmailStr`
is abstracted as a parameter `emailOk : String → Bool`.
-/

namespace Portfolio

/-- Result of validating one required string field with pydantic
`Field(..., min_length=lo, max_length=hi)`: absent or out-of-range is an
error, otherwise the string itself. -/
def reqStrLen (lo hi : ℕ) (v : Option String) : Except Unit String :=
  match v with
  | none => .error ()
  | some s => if lo ≤ s.length ∧ s.length ≤ hi then .ok s else .error ()

/-- Result of validating a required `EmailStr` field, with the external
e-mail validator abstracted as `emailOk`. -/
def emailCheck (emailOk : String → Bool) (v : Option String) : Except Unit String :=
  match v with
  | none => .error ()
  | some s => if emailOk s then .ok s else .error ()

/-- Result of validating an optional string field with
`Field(None, max_length=hi)`: absent is fine (defaults to `None`),
present must satisfy the bound. -/
def optMaxLen (hi : ℕ) (v : Option String) : Except Unit (Option String) :=
  match v with
  | none => .ok none
  | some s => if s.length ≤ hi then .ok (some s) else .error ()

/-- Untyped inbound JSON body for POST /contact: each schema field is
either absent or a string. -/
structure ContactPayload where
  name : Option String
  email : Option String
  subject : Option String
  message : Option String
  source : Option String

/-- Validated record of `schemas.ContactMessage`. -/
structure ContactMessage where
  name : String
  email : String
  subject : Option String
  message : String
  source : Option String
deriving DecidableEq

/-- Fields of `ContactMessage` that carry validation constraints, used to
name the offending field in a structured validation failure. -/
inductive ContactField
  | name | email | subject | message
deriving DecidableEq

/-- Helper turning one field check into its contribution to the error list. -/
def errIf {α : Type} (f : ContactField) (r : Except Unit α) : List ContactField :=
  match r with
  | .ok _ => []
  | .error _ => [f]

/-- Pydantic validation of a `ContactMessage` body (`schemas.py` lines 15-20):
`name` required with length in [2,120], `email` required and well-formed,
`subject` optional with length at most 200, `message` required with length in
[10,5000], `source` optional and unconstrained.  On failure the error lists,
in declaration order, every field violating its constraint. -/
def validateContactMessage (emailOk : String → Bool) (p : ContactPayload) :
    Except (List ContactField) ContactMessage :=
  match reqStrLen 2 120 p.name, emailCheck emailOk p.email,
        optMaxLen 200 p.subject, reqStrLen 10 5000 p.message with
  | .ok n, .ok e, .ok subj, .ok m => .ok ⟨n, e, subj, m, p.source⟩
  | rn, re, rs, rm =>
      .error (errIf .name rn ++ errIf .email re ++ errIf .subject rs ++ errIf .message rm)

/-- Untyped inbound JSON body for POST /visit. -/
structure VisitPayload where
  path : Option String
  user_agent : Option String
  referrer : Option String

/-- Validated record of `schemas.PortfolioVisit`. -/
structure PortfolioVisit where
  path : String
  user_agent : Option String
  referrer : Option String
deriving DecidableEq

/-- Fields of `PortfolioVisit` that can fail validation (only `path`). -/
inductive VisitField
  | path
deriving DecidableEq

/-- Pydantic validation of a `PortfolioVisit` body (`schemas.py` lines 28-31):
`path` is a required unconstrained string; `user_agent` and `referrer`
default to `None` when omitted. -/
def validatePortfolioVisit (p : VisitPayload) : Except (List VisitField) PortfolioVisit :=
  match p.path with
  | none => .error [.path]
  | some pa => .ok ⟨pa, p.user_agent, p.referrer⟩

/-- Validated record of `schemas.NewsletterSubscriber`. -/
structure NewsletterSubscriber where
  email : String
  name : Option String
deriving DecidableEq

/-- Value stored in a document field: a string, a store-internal ObjectId
(its 12 bytes abstracted as a natural number), or null. -/
inductive BVal
  | vStr : String → BVal
  | vOid : ℕ → BVal
  | vNull : BVal
deriving DecidableEq

/-- Hexadecimal digit character for a value below 16. -/
def hexChar (d : ℕ) : Char :=
  if d < 10 then Char.ofNat (48 + d) else Char.ofNat (87 + d)

/-- The 24-character lowercase-hex rendering of an ObjectId, as produced by
`str()` on a store identifier. -/
def objectIdHex (n : ℕ) : String :=
  String.mk ((List.range 24).map fun i => hexChar (n / 16 ^ (23 - i) % 16))

/-- Python `str()` on a document field value. -/
def bvalStr : BVal → String
  | .vStr s => s
  | .vOid n => objectIdHex n
  | .vNull => "None"

/-- A stored document: an association list from field names to values
(dictionary with unique keys). -/
abbrev Doc : Type := List (String × BVal)

/-- Modelled from the spec: the document store behind `database.py` (absent
from src/).  It holds documents grouped by collection-name tag, assigns each
insert a fresh ObjectId, and when unreachable (or rejecting a write) raises
an error carrying `errMsg`. -/
structure Store where
  docs : List (String × Doc)
  nextId : ℕ
  failing : Bool
  errMsg : String

/-- Modelled from the spec: `create_document` (database.py, absent from
src/) submits a validated record for durable storage under a collection-name
tag and returns the store-assigned identifier rendered as a 24-character
string; if the store is unreachable or rejects the write it raises. -/
def create_document (coll : String) (fields : Doc) (s : Store) :
    Except String (String × Store) :=
  if s.failing then .error s.errMsg
  else
    .ok (objectIdHex s.nextId,
      { s with
        docs := s.docs ++ [(coll, (("_id", BVal.vOid s.nextId) :: fields : Doc))]
        nextId := s.nextId + 1 })

/-- Modelled from the spec: `get_documents` (database.py, absent from src/)
returns up to `limit` stored documents of the given collection-name tag, in
the store's iteration order; if the store is unreachable it raises. -/
def get_documents (coll : String) (limit : ℕ) (s : Store) : Except String (List Doc) :=
  if s.failing then .error s.errMsg
  else .ok (((s.docs.filter fun d => d.1 = coll).map Prod.snd).take limit)

/-- Document fields persisted for a validated contact message. -/
def contactDoc (m : ContactMessage) : Doc :=
  [("name", .vStr m.name), ("email", .vStr m.email),
   ("subject", match m.subject with | some s => .vStr s | none => .vNull),
   ("message", .vStr m.message),
   ("source", match m.source with | some s => .vStr s | none => .vNull)]

/-- Document fields persisted for a newsletter subscriber. -/
def subscriberDoc (m : NewsletterSubscriber) : Doc :=
  [("email", .vStr m.email),
   ("name", match m.name with | some s => .vStr s | none => .vNull)]

/-- Document fields persisted for a portfolio visit. -/
def visitDoc (m : PortfolioVisit) : Doc :=
  [("path", .vStr m.path),
   ("user_agent", match m.user_agent with | some s => .vStr s | none => .vNull),
   ("referrer", match m.referrer with | some s => .vStr s | none => .vNull)]

/-- Success body `{"status": "ok", "id": doc_id}` of a write endpoint. -/
structure SubmitBody where
  status : String
  id : String
deriving DecidableEq

/-- Outcome of a write endpoint handler: a success body, or an
`HTTPException(status_code, detail)`. -/
inductive WriteOutcome
  | success : SubmitBody → WriteOutcome
  | httpError (status : ℕ) (detail : String)
deriving DecidableEq

/-- Handler of POST /contact (`main.py` lines 150-156): stores the validated
payload and returns `{"status": "ok", "id": doc_id}`, turning any storage
exception into `HTTPException(500, str(e))`. -/
def submit_contact (payload : ContactMessage) (s : Store) : WriteOutcome × Store :=
  match create_document "contactmessage" (contactDoc payload) s with
  | .ok (doc_id, s2) => (.success ⟨"ok", doc_id⟩, s2)
  | .error e => (.httpError 500 e, s)

/-- Handler of POST /subscribe (`main.py` lines 172-178). -/
def subscribe (payload : NewsletterSubscriber) (s : Store) : WriteOutcome × Store :=
  match create_document "newslettersubscriber" (subscriberDoc payload) s with
  | .ok (doc_id, s2) => (.success ⟨"ok", doc_id⟩, s2)
  | .error e => (.httpError 500 e, s)

/-- Handler of POST /visit (`main.py` lines 181-187). -/
def log_visit (payload : PortfolioVisit) (s : Store) : WriteOutcome × Store :=
  match create_document "portfoliovisit" (visitDoc payload) s with
  | .ok (doc_id, s2) => (.success ⟨"ok", doc_id⟩, s2)
  | .error e => (.httpError 500 e, s)

/-- Outcome of one full POST /contact request, FastAPI first running pydantic
validation on the body and only then invoking the handler. -/
inductive ContactRequestOutcome
  | validationError (errs : List ContactField)
  | response (w : WriteOutcome)
deriving DecidableEq

/-- Full POST /contact request flow: pydantic validation of the raw body,
then the `submit_contact` handler.  The final component counts how many
times `create_document` was invoked during the request. -/
def handleContactRequest (emailOk : String → Bool) (p : ContactPayload) (s : Store) :
    ContactRequestOutcome × Store × ℕ :=
  match validateContactMessage emailOk p with
  | .error errs => (.validationError errs, s, 0)
  | .ok m =>
      match submit_contact m s with
      | (w, s2) => (.response w, s2, 1)

/-- Rewrite of the storage-assigned `_id` entry of a listed document to its
string form (`main.py` lines 164-166). -/
def stringifyId (d : Doc) : Doc :=
  d.map fun kv => if kv.1 = "_id" then (kv.1, BVal.vStr (bvalStr kv.2)) else kv

/-- Outcome of GET /contact: a JSON array of documents, or an
`HTTPException(status_code, detail)`. -/
inductive ListOutcome
  | items (docs : List Doc)
  | httpError (status : ℕ) (detail : String)

/-- Handler of GET /contact (`main.py` lines 159-169): fetches up to `limit`
documents (default 20), converts each ObjectId `_id` to a string, and turns
any storage exception into `HTTPException(500, str(e))`. -/
def list_contacts (s : Store) (limit : ℕ := 20) : ListOutcome :=
  match get_documents "contactmessage" limit s with
  | .ok items => .items (items.map stringifyId)
  | .error e => .httpError 500 e

/-- A labelled link of the static profile. -/
structure Link where
  label : String
  href : String
deriving DecidableEq

/-- Static profile record (`main.py` lines 41-52). -/
structure Profile where
  name : String
  university : String
  location : String
  tagline : String
  avatar : String
  links : List Link
deriving DecidableEq

/-- One skill entry (`main.py` class Tech). -/
structure Tech where
  name : String
  level : String
deriving DecidableEq

/-- Static showcase project record (`main.py` class ShowcaseProject). -/
structure ShowcaseProject where
  title : String
  tagline : String
  description : String
  tech : List String
  highlights : List String
  repo : Option String
  demo : Option String
  images : List String
deriving DecidableEq

/-- One year of the static timeline (`main.py` lines 103-118). -/
structure TimelineEntry where
  year : String
  items : List String
deriving DecidableEq

/-- Static PROFILE constant (`main.py` lines 41-52). -/
def PROFILE : Profile :=
  { name := "Mechatronics Student"
    university := "Dedan Kimathi University of Technology (DeKUT)"
    location := "Nyeri, Kenya"
    tagline := "Building robots and smart systems that bridge hardware and software."
    avatar := "/avatar.png"
    links :=
      [⟨"GitHub", "https://github.com/"⟩,
       ⟨"LinkedIn", "https://linkedin.com/"⟩,
       ⟨"Email", "mailto:student@example.com"⟩] }

/-- Static SKILLS constant (`main.py` lines 54-63). -/
def SKILLS : List Tech :=
  [⟨"Control Systems", "Advanced"⟩,
   ⟨"Embedded C/C++", "Advanced"⟩,
   ⟨"Python (Robotics)", "Advanced"⟩,
   ⟨"ROS / ROS2", "Intermediate"⟩,
   ⟨"Computer Vision (OpenCV)", "Intermediate"⟩,
   ⟨"PCB Design (KiCad)", "Intermediate"⟩,
   ⟨"3D CAD (Fusion 360)", "Intermediate"⟩,
   ⟨"IoT (ESP32, MQTT)", "Advanced"⟩]

/-- Static PROJECTS constant (`main.py` lines 65-101). -/
def PROJECTS : List ShowcaseProject :=
  [{ title := "Vision-Guided Line Follower"
     tagline := "A high-speed line follower with PID and camera correction"
     description := "Designed and built a differential drive robot with an ESP32, optical sensor array, and onboard camera for corner detection. Implemented PID control and Kalman filtering for smooth tracking and anti-overshoot behavior."
     tech := ["ESP32", "PID", "OpenCV", "Python", "3D Printed Chassis"]
     highlights :=
       ["100+ samples/sec sensor fusion",
        "On-the-fly PID tuning via BLE",
        "Real-time telemetry dashboard"]
     repo := some "https://github.com/"
     demo := some "https://youtu.be/"
     images := ["/projects/line-follower-1.jpg", "/projects/line-follower-2.jpg"] },
   { title := "Robotic Arm with Inverse Kinematics"
     tagline := "5-DOF desktop arm with web-based control"
     description := "Built a 3D-printed 5-DOF arm driven by stepper motors, controlled with a Raspberry Pi. Implemented inverse kinematics in Python and exposed a web UI for trajectory planning."
     tech := ["Raspberry Pi", "Python", "Flask/React", "Stepper Drivers", "IK"]
     highlights :=
       ["Configurable workspace limits",
        "Saved motion profiles",
        "Camera-based calibration"]
     repo := some "https://github.com/"
     demo := some "https://youtu.be/"
     images := ["/projects/arm-1.jpg", "/projects/arm-2.jpg"] }]

/-- Static TIMELINE constant (`main.py` lines 103-118). -/
def TIMELINE : List TimelineEntry :=
  [{ year := "2025"
     items :=
       ["Final year at DeKUT focusing on autonomous systems",
        "Research: Low-cost visual odometry for indoor robots"] },
   { year := "2024"
     items :=
       ["Internship: Industrial automation (PLC, SCADA)",
        "Robotics club lead: organized 3 hackathons"] }]

/-- Handler of GET /profile (`main.py` lines 129-131).  The only mutable
process state is the store, which the handler ignores. -/
def get_profile (_s : Store) : Profile := PROFILE

/-- Handler of GET /skills (`main.py` lines 134-136). -/
def get_skills (_s : Store) : List Tech := SKILLS

/-- Handler of GET /projects (`main.py` lines 139-141): `model_dump` of each
static project, which serializes the record without changing its content. -/
def get_projects (_s : Store) : List ShowcaseProject := PROJECTS

/-- Handler of GET /timeline (`main.py` lines 144-146). -/
def get_timeline (_s : Store) : List TimelineEntry := TIMELINE

/-- State of the module-level `db` handle as seen by GET /test: either
`None`, or a connection carrying an optional `name` attribute and the result
(value or raised message) of `list_collection_names()`. -/
inductive DbState
  | noDb
  | conn (name : Option String) (listColls : Except String (List String))

/-- Process environment as read by `os.getenv`: each variable is absent or a
string (possibly empty, which Python treats as falsy). -/
structure Env where
  database_url : Option String
  database_name : Option String

/-- Python truthiness of an `os.getenv` result: a non-empty string. -/
def envTruthy : Option String → Bool
  | some s => s ≠ ""
  | none => false

/-- Response record built by GET /test.  `database_url` and `database_name`
start as `None` in the code, hence `Option String`. -/
structure TestResponse where
  backend : String
  database : String
  database_url : Option String
  database_name : Option String
  connection_status : String
  collections : List String
deriving DecidableEq

/-- Handler of GET /test (`main.py` lines 191-222): builds a status record,
capturing every failure state as a descriptive string, then unconditionally
overwrites `database_url` and `database_name` from the truthiness of the two
environment variables.  Totality of this function reflects that every risky
call in the handler is wrapped in try/except. -/
def test_database (dbs : DbState) (env : Env) : TestResponse :=
  let response : TestResponse :=
    { backend := "✅ Running"
      database := "❌ Not Available"
      database_url := none
      database_name := none
      connection_status := "Not Connected"
      collections := [] }
  let response :=
    match dbs with
    | .noDb => { response with database := "⚠️  Available but not initialized" }
    | .conn name listColls =>
        let r :=
          { response with
            database := "✅ Available"
            database_url := some "✅ Configured"
            database_name := some (match name with | some n => n | none => "✅ Connected")
            connection_status := "Connected" }
        match listColls with
        | .ok colls =>
            { r with collections := colls.take 10, database := "✅ Connected & Working" }
        | .error e =>
            { r with database := "⚠️  Connected but Error: " ++ e.take 50 }
  { response with
    database_url := some (if envTruthy env.database_url then "✅ Set" else "❌ Not Set")
    database_name := some (if envTruthy env.database_name then "✅ Set" else "❌ Not Set") }

/-! Helper lemmas about the field checks and identifiers. -/

theorem reqStrLen_ok {lo hi : ℕ} {v : Option String} {s : String}
    (h : reqStrLen lo hi v = .ok s) :
    v = some s ∧ lo ≤ s.length ∧ s.length ≤ hi := by
  cases v with
  | none => simp [reqStrLen] at h
  | some t =>
      by_cases hc : lo ≤ t.length ∧ t.length ≤ hi <;>
        simp [reqStrLen, hc] at h <;> simp_all

theorem reqStrLen_error {lo hi : ℕ} {v : Option String} {u : Unit}
    (h : reqStrLen lo hi v = .error u) :
    ¬ ∃ s, v = some s ∧ lo ≤ s.length ∧ s.length ≤ hi := by
  cases v with
  | none => simp
  | some t =>
      by_cases hc : lo ≤ t.length ∧ t.length ≤ hi <;>
        simp [reqStrLen, hc] at h ⊢ <;> omega

theorem emailCheck_ok {f : String → Bool} {v : Option String} {s : String}
    (h : emailCheck f v = .ok s) : v = some s ∧ f s = true := by
  cases v with
  | none => simp [emailCheck] at h
  | some t =>
      by_cases hc : f t <;> simp [emailCheck, hc] at h <;> simp_all

theorem emailCheck_error {f : String → Bool} {v : Option String} {u : Unit}
    (h : emailCheck f v = .error u) : ¬ ∃ e, v = some e ∧ f e = true := by
  cases v with
  | none => simp
  | some t =>
      by_cases hc : f t <;> simp [emailCheck, hc] at h ⊢ <;> simp_all

theorem optMaxLen_ok {hi : ℕ} {v : Option String} {o : Option String}
    (h : optMaxLen hi v = .ok o) :
    o = v ∧ ∀ s, v = some s → s.length ≤ hi := by
  cases v with
  | none =>
      simp [optMaxLen] at h
      subst h
      simp
  | some t =>
      by_cases hc : t.length ≤ hi
      · simp [optMaxLen, hc] at h
        subst h
        refine ⟨rfl, ?_⟩
        intro s hs
        injection hs with h2
        subst h2
        exact hc
      · simp [optMaxLen, hc] at h

theorem optMaxLen_error {hi : ℕ} {v : Option String} {u : Unit}
    (h : optMaxLen hi v = .error u) : ∃ s, v = some s ∧ hi < s.length := by
  cases v with
  | none => simp [optMaxLen] at h
  | some t =>
      by_cases hc : t.length ≤ hi <;> simp [optMaxLen, hc] at h ⊢ <;> omega

theorem objectIdHex_length (n : ℕ) : (objectIdHex n).length = 24 := by
  simp [objectIdHex, String.length]

theorem objectIdHex_ne_empty (n : ℕ) : objectIdHex n ≠ "" := by
  intro h
  have := objectIdHex_length n
  rw [h] at this
  simp [String.length] at this

/-- Characterization of `validateContactMessage`: success is equivalent to
every field constraint holding, and a failure lists exactly the violating
fields. -/
theorem validateContactMessage_spec (emailOk : String → Bool) (p : ContactPayload) :
    ((∃ m, validateContactMessage emailOk p = .ok m) ↔
      ((∃ s, p.name = some s ∧ 2 ≤ s.length ∧ s.length ≤ 120) ∧
       (∃ e, p.email = some e ∧ emailOk e = true) ∧
       (∃ m, p.message = some m ∧ 10 ≤ m.length ∧ m.length ≤ 5000) ∧
       (∀ s, p.subject = some s → s.length ≤ 200))) ∧
    (∀ errs, validateContactMessage emailOk p = .error errs →
      ((ContactField.name ∈ errs ↔ ¬ ∃ s, p.name = some s ∧ 2 ≤ s.length ∧ s.length ≤ 120) ∧
       (ContactField.email ∈ errs ↔ ¬ ∃ e, p.email = some e ∧ emailOk e = true) ∧
       (ContactField.subject ∈ errs ↔ ∃ s, p.subject = some s ∧ 200 < s.length) ∧
       (ContactField.message ∈ errs ↔ ¬ ∃ m, p.message = some m ∧ 10 ≤ m.length ∧ m.length ≤ 5000))) := by
  rcases hn : reqStrLen 2 120 p.name with u | n <;>
    rcases he : emailCheck emailOk p.email with v | e <;>
      rcases hs : optMaxLen 200 p.subject with w | subj <;>
        rcases hm : reqStrLen 10 5000 p.message with x | m <;>
          (first | have Hn := reqStrLen_ok hn | have Hn := reqStrLen_error hn) <;>
          (first | have He := emailCheck_ok he | have He := emailCheck_error he) <;>
          (first | have Hs := optMaxLen_ok hs | have Hs := optMaxLen_error hs) <;>
          (first | have Hm := reqStrLen_ok hm | have Hm := reqStrLen_error hm) <;>
          simp only [validateContactMessage, hn, he, hs, hm, errIf] <;>
          simp_all <;>
          try omega

/-- Claim C1: validation of a `ContactMessage` payload succeeds if and only if
the name length is in [2,120], the email is well-formed (per the abstracted
e-mail validator), the message length is in [10,5000], and subject, when
present, is at most 200 characters; when validation fails, the failure
enumerates exactly the fields that violated a constraint. -/
theorem contact_validation_iff (emailOk : String → Bool) (p : ContactPayload) :
    ((∃ m, validateContactMessage emailOk p = .ok m) ↔
      ((∃ s, p.name = some s ∧ 2 ≤ s.length ∧ s.length ≤ 120) ∧
       (∃ e, p.email = some e ∧ emailOk e = true) ∧
       (∃ m, p.message = some m ∧ 10 ≤ m.length ∧ m.length ≤ 5000) ∧
       (∀ s, p.subject = some s → s.length ≤ 200))) ∧
    (∀ errs, validateContactMessage emailOk p = .error errs →
      ((ContactField.name ∈ errs ↔ ¬ ∃ s, p.name = some s ∧ 2 ≤ s.length ∧ s.length ≤ 120) ∧
       (ContactField.email ∈ errs ↔ ¬ ∃ e, p.email = some e ∧ emailOk e = true) ∧
       (ContactField.subject ∈ errs ↔ ∃ s, p.subject = some s ∧ 200 < s.length) ∧
       (ContactField.message ∈ errs ↔ ¬ ∃ m, p.message = some m ∧ 10 ≤ m.length ∧ m.length ≤ 5000))) :=
  validateContactMessage_spec emailOk p

/-- Witness for C1: the spec's own examples.  The valid body
(name "Jo Doe", a well-formed email, a long-enough message) validates, and in
the invalid body (name "J", email "bad", message "hi") the failure contains
`name`, whose constraint indeed fails. -/
theorem contact_validation_iff_witness :
    (∃ m, validateContactMessage (fun s => s == "jo@example.com")
        ⟨some "Jo Doe", some "jo@example.com", none, some "Hello, I love your robots!", none⟩
        = .ok m) ∧
    ¬ ∃ s, (some "J" : Option String) = some s ∧ 2 ≤ s.length ∧ s.length ≤ 120 := by
  constructor
  · exact (contact_validation_iff (fun s => s == "jo@example.com")
      ⟨some "Jo Doe", some "jo@example.com", none, some "Hello, I love your robots!", none⟩).1.mpr
      ⟨⟨"Jo Doe", rfl, by decide, by decide⟩,
       ⟨"jo@example.com", rfl, by decide⟩,
       ⟨"Hello, I love your robots!", rfl, by decide, by decide⟩,
       by intro s hs; cases hs⟩
  · exact ((contact_validation_iff (fun s => s == "jo@example.com")
      ⟨some "J", some "bad", none, some "hi", none⟩).2
      [.name, .email, .message] (by rfl)).1.mp (by decide)

/-- Claim C10: `PortfolioVisit` validation only requires `path` to be present
as a string; a payload whose `path` is the empty string is accepted, and
`user_agent` and `referrer` default to `None` when omitted. -/
theorem visit_validation (p : VisitPayload) :
    ((∃ v, validatePortfolioVisit p = .ok v) ↔ ∃ s, p.path = some s) ∧
    (validatePortfolioVisit ⟨some "", none, none⟩ = .ok ⟨"", none, none⟩) ∧
    (∀ pa, p.path = some pa →
      validatePortfolioVisit p = .ok ⟨pa, p.user_agent, p.referrer⟩) := by
  refine ⟨?_, rfl, ?_⟩
  · cases hp : p.path <;> simp [validatePortfolioVisit, hp]
  · intro pa hpa
    simp [validatePortfolioVisit, hpa]

/-- Witness for C10: a concrete payload with empty path and omitted optional
fields validates to the expected record. -/
theorem visit_validation_witness :
    validatePortfolioVisit ⟨some "", none, none⟩ = .ok ⟨"", none, none⟩ :=
  (visit_validation ⟨some "", none, none⟩).2.2 "" rfl

/-- Claim C2: every contact submission whose message length is strictly below
10 or strictly above 5000 is rejected with a validation failure, leaves the
store untouched and never invokes `create_document`. -/
theorem contact_bad_message_rejected (emailOk : String → Bool) (p : ContactPayload)
    (s : Store) (msg : String) (hmsg : p.message = some msg)
    (hbad : msg.length < 10 ∨ 5000 < msg.length) :
    (∃ errs, (handleContactRequest emailOk p s).1 = .validationError errs) ∧
    (handleContactRequest emailOk p s).2.1 = s ∧
    (handleContactRequest emailOk p s).2.2 = 0 := by
  have hm : reqStrLen 10 5000 p.message = .error () := by
    rw [hmsg]
    simp only [reqStrLen]
    rw [if_neg (by omega)]
  rcases hn : reqStrLen 2 120 p.name with u | n <;>
    rcases he : emailCheck emailOk p.email with v | e <;>
      rcases hs : optMaxLen 200 p.subject with w | subj <;>
        simp [handleContactRequest, validateContactMessage, hn, he, hs, hm, errIf]

/-- Witness for C2: a body with the too-short message "hi" is rejected with
zero storage calls. -/
theorem contact_bad_message_rejected_witness :
    (∃ errs, (handleContactRequest (fun _ => true)
        ⟨some "Jo Doe", some "jo@example.com", none, some "hi", none⟩
        ⟨[], 0, false, ""⟩).1 = .validationError errs) ∧
    (handleContactRequest (fun _ => true)
        ⟨some "Jo Doe", some "jo@example.com", none, some "hi", none⟩
        ⟨[], 0, false, ""⟩).2.2 = 0 := by
  have h := contact_bad_message_rejected (fun _ => true)
    ⟨some "Jo Doe", some "jo@example.com", none, some "hi", none⟩
    ⟨[], 0, false, ""⟩ "hi" rfl (Or.inl (by decide))
  exact ⟨h.1, h.2.2⟩

/-- Claim C3: for every valid contact payload, when the store accepts the
write the request succeeds with body `{"status": "ok", "id": doc_id}` whose
identifier string is non-empty. -/
theorem contact_valid_submission_ok (emailOk : String → Bool) (p : ContactPayload)
    (s : Store)
    (hn : ∃ nm, p.name = some nm ∧ 2 ≤ nm.length ∧ nm.length ≤ 120)
    (he : ∃ e, p.email = some e ∧ emailOk e = true)
    (hm : ∃ m, p.message = some m ∧ 10 ≤ m.length ∧ m.length ≤ 5000)
    (hs : ∀ t, p.subject = some t → t.length ≤ 200)
    (hstore : s.failing = false) :
    ∃ body, (handleContactRequest emailOk p s).1 = .response (.success body) ∧
      body.status = "ok" ∧ body.id ≠ "" := by
  obtain ⟨m, hv⟩ := (validateContactMessage_spec emailOk p).1.mpr ⟨hn, he, hm, hs⟩
  refine ⟨⟨"ok", objectIdHex s.nextId⟩, ?_, rfl, objectIdHex_ne_empty s.nextId⟩
  simp [handleContactRequest, hv, submit_contact, create_document, hstore]

/-- Witness for C3: the spec's example body against an empty accepting store
yields a successful response with a non-empty identifier. -/
theorem contact_valid_submission_ok_witness :
    ∃ body, (handleContactRequest (fun s => s == "jo@example.com")
        ⟨some "Jo Doe", some "jo@example.com", none, some "Hello, I love your robots!", none⟩
        ⟨[], 0, false, ""⟩).1 = .response (.success body) ∧
      body.status = "ok" ∧ body.id ≠ "" :=
  contact_valid_submission_ok (fun s => s == "jo@example.com")
    ⟨some "Jo Doe", some "jo@example.com", none, some "Hello, I love your robots!", none⟩
    ⟨[], 0, false, ""⟩
    ⟨"Jo Doe", rfl, by decide, by decide⟩
    ⟨"jo@example.com", rfl, by decide⟩
    ⟨"Hello, I love your robots!", rfl, by decide, by decide⟩
    (by intro t ht; cases ht)
    rfl

/-- A 61-character storage error message used to compare the propagated
detail against its 50-character truncation (the repository's truncation
convention, `str(e)[:50]`). -/
def cexErrMsg : String := "connection to the document store timed out after many retries"

set_option maxRecDepth 4000 in
/-- Counterexample for C4: when the store raises `cexErrMsg`, the /contact
handler propagates the full message as the 500 detail, which differs from
its truncation, so the detail is not the truncated error message. -/
theorem write_error_detail_not_truncated_cex :
    (submit_contact ⟨"Jo Doe", "jo@example.com", none, "Hello, I love your robots!", none⟩
        ⟨[], 0, true, cexErrMsg⟩).1 = .httpError 500 cexErrMsg ∧
    cexErrMsg ≠ cexErrMsg.take 50 := by
  exact ⟨rfl, by decide⟩

/-- Claim C4 (amended): for every write endpoint, if the storage call raises
then the operation fails with HTTP status 500 whose detail is the underlying
error message in full (`str(e)`, not truncated), and no success response is
produced. -/
theorem write_endpoints_storage_error_full (s : Store) (hc : s.failing = true)
    (m1 : ContactMessage) (m2 : NewsletterSubscriber) (m3 : PortfolioVisit) :
    ((submit_contact m1 s).1 = .httpError 500 s.errMsg ∧
      ∀ b, (submit_contact m1 s).1 ≠ .success b) ∧
    ((subscribe m2 s).1 = .httpError 500 s.errMsg ∧
      ∀ b, (subscribe m2 s).1 ≠ .success b) ∧
    ((log_visit m3 s).1 = .httpError 500 s.errMsg ∧
      ∀ b, (log_visit m3 s).1 ≠ .success b) := by
  simp [submit_contact, subscribe, log_visit, create_document, hc]

/-- Witness for C4 (amended): a failing store makes all three write handlers
return the 500 error carrying the full message. -/
theorem write_endpoints_storage_error_full_witness :
    (submit_contact ⟨"Jo Doe", "jo@example.com", none, "Hello, I love your robots!", none⟩
        ⟨[], 0, true, "boom"⟩).1 = .httpError 500 "boom" ∧
    (subscribe ⟨"jo@example.com", none⟩ ⟨[], 0, true, "boom"⟩).1 = .httpError 500 "boom" ∧
    (log_visit ⟨"/", none, none⟩ ⟨[], 0, true, "boom"⟩).1 = .httpError 500 "boom" := by
  have h := write_endpoints_storage_error_full ⟨[], 0, true, "boom"⟩ rfl
    ⟨"Jo Doe", "jo@example.com", none, "Hello, I love your robots!", none⟩
    ⟨"jo@example.com", none⟩ ⟨"/", none, none⟩
  exact ⟨h.1.1, h.2.1.1, h.2.2.1⟩

/-- Claim C5: the list endpoint with `limit=N` returns at most N documents,
and omitting `limit` is the same call with the default bound 20. -/
theorem list_contacts_limit (s : Store) (limit : ℕ) :
    (∀ docs, list_contacts s limit = .items docs → docs.length ≤ limit) ∧
    list_contacts s = list_contacts s 20 := by
  refine ⟨?_, rfl⟩
  intro docs h
  by_cases hf : s.failing <;> simp [list_contacts, get_documents, hf] at h
  subst h
  simp [List.length_take]

/-- Witness for C5: a store holding two contact documents listed with
`limit=1` returns exactly one document. -/
theorem list_contacts_limit_witness :
    ∃ docs, list_contacts
        ⟨[("contactmessage", [("name", .vStr "a")]), ("contactmessage", [("name", .vStr "b")])],
         2, false, ""⟩ 1 = .items docs ∧ docs.length ≤ 1 := by
  refine ⟨[stringifyId [("name", .vStr "a")]], rfl, ?_⟩
  exact (list_contacts_limit
    ⟨[("contactmessage", [("name", .vStr "a")]), ("contactmessage", [("name", .vStr "b")])],
     2, false, ""⟩ 1).1 _ rfl

/-- Lookup of `_id` after `stringifyId` always yields a string value. -/
theorem lookup_stringifyId (d : Doc) :
    ∀ v, (stringifyId d).lookup "_id" = some v → ∃ str, v = BVal.vStr str := by
  induction d with
  | nil => intro v h; simp [stringifyId] at h
  | cons kv rest ih =>
      obtain ⟨k, val⟩ := kv
      intro v h
      by_cases hk : k = "_id"
      · subst hk
        have hcons : stringifyId (("_id", val) :: rest)
            = ("_id", BVal.vStr (bvalStr val)) :: stringifyId rest := by
          simp [stringifyId]
        rw [hcons] at h
        simp [List.lookup] at h
        first
        | exact ⟨bvalStr val, h⟩
        | exact ⟨bvalStr val, h.symm⟩
      · have hcons : stringifyId ((k, val) :: rest) = (k, val) :: stringifyId rest := by
          simp [stringifyId, hk]
        rw [hcons] at h
        have hbe : ("_id" == k) = false := beq_eq_false_iff_ne.mpr (Ne.symm hk)
        simp only [List.lookup, hbe] at h
        exact ih v h

/-- Claim C7: every document returned by the list endpoint has any `_id`
field converted to a string value before leaving the service boundary. -/
theorem list_contacts_id_string (s : Store) (limit : ℕ) (docs : List Doc)
    (h : list_contacts s limit = .items docs) :
    ∀ d ∈ docs, ∀ v, d.lookup "_id" = some v → ∃ str, v = BVal.vStr str := by
  by_cases hf : s.failing <;> simp [list_contacts, get_documents, hf] at h
  subst h
  intro d hd
  obtain ⟨d0, _, rfl⟩ := List.mem_map.mp (List.mem_of_mem_take hd)
  exact lookup_stringifyId d0.2

/-- Witness for C7: a stored document whose `_id` is an ObjectId is listed
with its `_id` as a string. -/
theorem list_contacts_id_string_witness :
    ∃ str, (stringifyId [("_id", BVal.vOid 5), ("name", BVal.vStr "a")]).lookup "_id"
      = some (BVal.vStr str) := by
  have h := list_contacts_id_string
    ⟨[("contactmessage", [("_id", BVal.vOid 5), ("name", BVal.vStr "a")])], 6, false, ""⟩
    20 [stringifyId [("_id", BVal.vOid 5), ("name", BVal.vStr "a")]] rfl
  have hlook : (stringifyId [("_id", BVal.vOid 5), ("name", BVal.vStr "a")]).lookup "_id"
      = some (BVal.vStr (objectIdHex 5)) := by
    simp [stringifyId, bvalStr, List.lookup]
  obtain ⟨str, hstr⟩ := h _ (by simp) (BVal.vStr (objectIdHex 5)) hlook
  exact ⟨str, by rw [hlook, hstr]⟩

/-- Claim C6: the static read endpoints are deterministic and idempotent
(their output does not depend on the mutable process state, so repeated
calls within a process lifetime are identical), and GET /skills always
returns the fixed 8-entry skill list. -/
theorem static_endpoints_deterministic :
    (∀ s1 s2 : Store, get_profile s1 = get_profile s2 ∧ get_skills s1 = get_skills s2 ∧
      get_projects s1 = get_projects s2 ∧ get_timeline s1 = get_timeline s2) ∧
    (∀ s : Store, get_skills s = SKILLS) ∧ SKILLS.length = 8 :=
  ⟨fun _ _ => ⟨rfl, rfl, rfl, rfl⟩, fun _ => rfl, rfl⟩

/-- Claim C8: GET /test is total (the model of never raising: every risky
call in the handler is wrapped), and for every connection state it reports
`database_url` and `database_name` as "❌ Not Set" when the corresponding
environment variable is absent, while a failing introspection call is
captured as a descriptive status string rather than propagated. -/
theorem test_database_reports (dbs : DbState) (env : Env) :
    (env.database_url = none → (test_database dbs env).database_url = some "❌ Not Set") ∧
    (env.database_name = none → (test_database dbs env).database_name = some "❌ Not Set") ∧
    (∀ name e, dbs = .conn name (.error e) →
      (test_database dbs env).database = "⚠️  Connected but Error: " ++ e.take 50) := by
  refine ⟨?_, ?_, ?_⟩
  · intro hu
    simp [test_database, envTruthy, hu]
  · intro hn
    simp [test_database, envTruthy, hn]
  · intro name e hdbs
    subst hdbs
    simp [test_database]

/-- Witness for C8: with both variables absent and a connection whose
introspection raises "boom", the handler reports "❌ Not Set" twice and the
captured error string. -/
theorem test_database_reports_witness :
    (test_database (.conn (some "mydb") (.error "boom")) ⟨none, none⟩).database_url
      = some "❌ Not Set" ∧
    (test_database (.conn (some "mydb") (.error "boom")) ⟨none, none⟩).database_name
      = some "❌ Not Set" ∧
    (test_database (.conn (some "mydb") (.error "boom")) ⟨none, none⟩).database
      = "⚠️  Connected but Error: " ++ "boom".take 50 := by
  have h := test_database_reports (.conn (some "mydb") (.error "boom")) ⟨none, none⟩
  exact ⟨h.1 rfl, h.2.1 rfl, h.2.2 (some "mydb") "boom" rfl⟩

/-- Counterexample for C9: with DATABASE_URL present but set to the empty
string (which Python treats as falsy), the final `database_url` is
"❌ Not Set" even though the variable is present, and two present values
("" and "x") yield different reports, so the field does not depend only on
presence. -/
theorem test_database_env_presence_cex :
    (Env.mk (some "") none).database_url = some "" ∧
    (test_database .noDb ⟨some "", none⟩).database_url = some "❌ Not Set" ∧
    (test_database .noDb ⟨some "x", none⟩).database_url = some "✅ Set" :=
  ⟨rfl, rfl, rfl⟩

/-- Claim C9 (amended): the final `database_url` and `database_name` fields
of GET /test depend only on the truthiness of the DATABASE_URL and
DATABASE_NAME environment variables ("✅ Set" when present and non-empty,
"❌ Not Set" when absent or empty), regardless of the store-connection
state: the unconditional final assignments overwrite any connection-derived
value such as "✅ Configured". -/
theorem test_database_env_truthiness (dbs dbs2 : DbState) (env : Env) :
    ((test_database dbs env).database_url = (test_database dbs2 env).database_url ∧
     (test_database dbs env).database_name = (test_database dbs2 env).database_name) ∧
    ((test_database dbs env).database_url = some "✅ Set" ↔
      ∃ s, env.database_url = some s ∧ s ≠ "") ∧
    ((test_database dbs env).database_url = some "❌ Not Set" ↔
      ¬ ∃ s, env.database_url = some s ∧ s ≠ "") ∧
    ((test_database dbs env).database_name = some "✅ Set" ↔
      ∃ s, env.database_name = some s ∧ s ≠ "") ∧
    ((test_database dbs env).database_name = some "❌ Not Set" ↔
      ¬ ∃ s, env.database_name = some s ∧ s ≠ "") := by
  refine ⟨⟨rfl, rfl⟩, ?_, ?_, ?_, ?_⟩ <;>
    [cases hu : env.database_url; cases hu : env.database_url;
     cases hu : env.database_name; cases hu : env.database_name] <;>
    simp [test_database, envTruthy, hu] <;>
    rename_i s <;>
    by_cases hs : s = "" <;>
    simp [hs]

/-- Witness for C9 (amended): with a non-empty DATABASE_URL and an absent
DATABASE_NAME the final report is "✅ Set" and "❌ Not Set" for every
connection state. -/
theorem test_database_env_truthiness_witness :
    (test_database .noDb ⟨some "mongodb://h", none⟩).database_url = some "✅ Set" ∧
    (test_database .noDb ⟨some "mongodb://h", none⟩).database_name = some "❌ Not Set" := by
  have h := test_database_env_truthiness .noDb (.conn none (.ok [])) ⟨some "mongodb://h", none⟩
  exact ⟨h.2.1.mpr ⟨"mongodb://h", rfl, by decide⟩, h.2.2.2.2.mpr (by simp)⟩

end Portfolio
